import Mathlib

/- Verification of the lambda-extensions client (Go package extensions).
   The development embeds the lifecycle event decoder, the registration
   call, the telemetry subscription body and the Run polling loop, and
   proves theorems about their specified behaviour. -/

namespace Extensions

/-- Go error values as this client produces them: a leaf error made with
fmt.Errorf without a wrap verb, or a wrapping error made with the w verb,
which keeps the inner error reachable through Unwrap. -/
inductive GoError where
  | errorf (msg : String) : GoError
  | wrap (msg : String) (inner : GoError) : GoError
deriving DecidableEq

/-- The display message of an error; a wrapping error prepends its own text
to the message of the inner error, as fmt.Errorf does. -/
def GoError.message : GoError → String
  | .errorf m => m
  | .wrap m inner => m ++ inner.message

/-- The errors.Is test for these error values: equality with the target,
otherwise unwrap one level and repeat. -/
def GoError.is : GoError → GoError → Bool
  | .errorf m, t => decide (GoError.errorf m = t)
  | .wrap m inner, t => decide (GoError.wrap m inner = t) || GoError.is inner t

/-- Parsed JSON values, the input domain of the encoding and decoding done
with package encoding json. -/
inductive Json where
  | null : Json
  | bool (b : Bool) : Json
  | num (n : Int) : Json
  | str (s : String) : Json
  | arr (elems : List Json) : Json
  | obj (fields : List (String × Json)) : Json

/-- ASCII lower casing of one character. -/
def lowerChar (c : Char) : Char :=
  if c.toNat ≥ 65 ∧ c.toNat ≤ 90 then Char.ofNat (c.toNat + 32) else c

/-- Case folded equality of two character lists. -/
def foldEqChars : List Char → List Char → Bool
  | [], [] => true
  | a :: as, b :: bs => (lowerChar a == lowerChar b) && foldEqChars as bs
  | _, _ => false

/-- Case-insensitive field name matching, as encoding json applies when it
assigns a JSON object key to a struct field. -/
def foldEq (a b : String) : Bool := foldEqChars a.data b.data

/-- The EventType constant Invoke, the string INVOKE. -/
def EventTypeInvoke : String := "INVOKE"

/-- The EventType constant Shutdown, the string SHUTDOWN. -/
def EventTypeShutdown : String := "SHUTDOWN"

/-- The tracing member of an invoke event: a type and value pair. -/
structure Tracing where
  type : String
  value : String
deriving DecidableEq

/-- InvokeEvent: the payload of a lifecycle event with eventType INVOKE. -/
structure InvokeEvent where
  EventType : String
  DeadlineMs : Int
  RequestID : String
  InvokedFunctionArn : String
  Tracing : Tracing
deriving DecidableEq

/-- ShutdownEvent: the payload of a lifecycle event with eventType SHUTDOWN. -/
structure ShutdownEvent where
  EventType : String
  DeadlineMs : Int
  ShutdownReason : String
deriving DecidableEq

/-- Event: the tagged pair of optional variants that UnmarshalJSON fills. -/
structure Event where
  Invoke : Option InvokeEvent
  Shutdown : Option ShutdownEvent
deriving DecidableEq

/-- The Go zero value of Tracing. -/
def zeroTracing : Tracing := { type := "", value := "" }

/-- The Go zero value of InvokeEvent, the state of a fresh allocation. -/
def zeroInvokeEvent : InvokeEvent :=
  { EventType := "", DeadlineMs := 0, RequestID := "", InvokedFunctionArn := ""
    Tracing := zeroTracing }

/-- The Go zero value of ShutdownEvent, the state of a fresh allocation. -/
def zeroShutdownEvent : ShutdownEvent :=
  { EventType := "", DeadlineMs := 0, ShutdownReason := "" }

/-- The Go zero value of Event: both variants nil, the receiver state in
fetchNextEvent before decoding. -/
def zeroEvent : Event := { Invoke := none, Shutdown := none }

/-- A raw wire payload: either bytes that do not parse as JSON at all, or
the parsed JSON value. -/
inductive RawData where
  | malformed : RawData
  | wellFormed (j : Json) : RawData

/-- Decoding the anonymous common struct over a JSON object: scan the keys
in order, assigning a key that matches eventType; a later duplicate
overwrites an earlier one; a value of the wrong JSON kind is a type error;
a null value leaves the field unchanged; other keys are ignored. -/
def unmarshalCommonFields (acc : String) : List (String × Json) → Except GoError String
  | [] => Except.ok acc
  | (k, v) :: rest =>
    if foldEq k "eventType" then
      match v with
      | .str s => unmarshalCommonFields s rest
      | .null => unmarshalCommonFields acc rest
      | _ => Except.error (.errorf "json: cannot unmarshal value into field eventType")
    else unmarshalCommonFields acc rest

/-- Decoding the anonymous common struct from a JSON value: null is a no
operation that keeps the zero value, an object is scanned field by field,
and every other JSON kind is a type error. -/
def unmarshalCommon : Json → Except GoError String
  | .null => Except.ok ""
  | .obj kvs => unmarshalCommonFields "" kvs
  | _ => Except.error (.errorf "json: cannot unmarshal value into common event struct")

/-- Decoding the tracing struct over the keys of a JSON object, with the
partially filled struct returned alongside an error on a type mismatch. -/
def unmarshalTracingFields (r : Tracing) : List (String × Json) → Tracing × Option GoError
  | [] => (r, none)
  | (k, v) :: rest =>
    if foldEq k "type" then
      match v with
      | .str s => unmarshalTracingFields { r with type := s } rest
      | .null => unmarshalTracingFields r rest
      | _ => (r, some (.errorf "json: cannot unmarshal value into field type"))
    else if foldEq k "value" then
      match v with
      | .str s => unmarshalTracingFields { r with value := s } rest
      | .null => unmarshalTracingFields r rest
      | _ => (r, some (.errorf "json: cannot unmarshal value into field value"))
    else unmarshalTracingFields r rest

/-- Decoding an InvokeEvent over the keys of a JSON object: eventType,
requestId and invokedFunctionArn take strings, deadlineMs takes a number,
tracing recurses into a nested object, unknown keys are ignored. -/
def unmarshalInvokeFields (r : InvokeEvent) : List (String × Json) → InvokeEvent × Option GoError
  | [] => (r, none)
  | (k, v) :: rest =>
    if foldEq k "eventType" then
      match v with
      | .str s => unmarshalInvokeFields { r with EventType := s } rest
      | .null => unmarshalInvokeFields r rest
      | _ => (r, some (.errorf "json: cannot unmarshal value into field eventType"))
    else if foldEq k "deadlineMs" then
      match v with
      | .num n => unmarshalInvokeFields { r with DeadlineMs := n } rest
      | .null => unmarshalInvokeFields r rest
      | _ => (r, some (.errorf "json: cannot unmarshal value into field deadlineMs"))
    else if foldEq k "requestId" then
      match v with
      | .str s => unmarshalInvokeFields { r with RequestID := s } rest
      | .null => unmarshalInvokeFields r rest
      | _ => (r, some (.errorf "json: cannot unmarshal value into field requestId"))
    else if foldEq k "invokedFunctionArn" then
      match v with
      | .str s => unmarshalInvokeFields { r with InvokedFunctionArn := s } rest
      | .null => unmarshalInvokeFields r rest
      | _ => (r, some (.errorf "json: cannot unmarshal value into field invokedFunctionArn"))
    else if foldEq k "tracing" then
      match v with
      | .obj tkvs =>
        match unmarshalTracingFields r.Tracing tkvs with
        | (t, none) => unmarshalInvokeFields { r with Tracing := t } rest
        | (t, some e) => ({ r with Tracing := t }, some e)
      | .null => unmarshalInvokeFields r rest
      | _ => (r, some (.errorf "json: cannot unmarshal value into field tracing"))
    else unmarshalInvokeFields r rest

/-- Decoding an InvokeEvent from a JSON value: null keeps the current
contents, an object is scanned field by field, every other kind errors. -/
def unmarshalInvoke (r : InvokeEvent) : Json → InvokeEvent × Option GoError
  | .null => (r, none)
  | .obj kvs => unmarshalInvokeFields r kvs
  | _ => (r, some (.errorf "json: cannot unmarshal value into InvokeEvent"))

/-- Decoding a ShutdownEvent over the keys of a JSON object: eventType and
shutdownReason take strings, deadlineMs takes a number. -/
def unmarshalShutdownFields (r : ShutdownEvent) : List (String × Json) → ShutdownEvent × Option GoError
  | [] => (r, none)
  | (k, v) :: rest =>
    if foldEq k "eventType" then
      match v with
      | .str s => unmarshalShutdownFields { r with EventType := s } rest
      | .null => unmarshalShutdownFields r rest
      | _ => (r, some (.errorf "json: cannot unmarshal value into field eventType"))
    else if foldEq k "deadlineMs" then
      match v with
      | .num n => unmarshalShutdownFields { r with DeadlineMs := n } rest
      | .null => unmarshalShutdownFields r rest
      | _ => (r, some (.errorf "json: cannot unmarshal value into field deadlineMs"))
    else if foldEq k "shutdownReason" then
      match v with
      | .str s => unmarshalShutdownFields { r with ShutdownReason := s } rest
      | .null => unmarshalShutdownFields r rest
      | _ => (r, some (.errorf "json: cannot unmarshal value into field shutdownReason"))
    else unmarshalShutdownFields r rest

/-- Decoding a ShutdownEvent from a JSON value. -/
def unmarshalShutdown (r : ShutdownEvent) : Json → ShutdownEvent × Option GoError
  | .null => (r, none)
  | .obj kvs => unmarshalShutdownFields r kvs
  | _ => (r, some (.errorf "json: cannot unmarshal value into ShutdownEvent"))

/-- Event UnmarshalJSON: first decode the common struct to read eventType;
on INVOKE allocate a fresh InvokeEvent into the Invoke field and decode the
whole payload into it; on SHUTDOWN do the same for the Shutdown field; any
other discriminator is the error unknown event type. The receiver state is
returned next to the error, since the Go method mutates the receiver even
when the inner decode fails. -/
def Event.unmarshalJSON (r : Event) : RawData → Event × Option GoError
  | .malformed => (r, some (.errorf "json: syntax error in payload"))
  | .wellFormed j =>
    match unmarshalCommon j with
    | .error e => (r, some e)
    | .ok et =>
      if et = EventTypeInvoke then
        ({ r with Invoke := some (unmarshalInvoke zeroInvokeEvent j).1 },
         (unmarshalInvoke zeroInvokeEvent j).2)
      else if et = EventTypeShutdown then
        ({ r with Shutdown := some (unmarshalShutdown zeroShutdownEvent j).1 },
         (unmarshalShutdown zeroShutdownEvent j).2)
      else (r, some (.errorf ("unknown event type: " ++ et)))

/-- The decode step of fetchNextEvent: decode the response body into a zero
valued Event; an error from the decoder makes the fetch fail. -/
def fetchDecode (data : RawData) : Except GoError Event :=
  match Event.unmarshalJSON zeroEvent data with
  | (_, some e) => Except.error e
  | (ev, none) => Except.ok ev

/-- The three branches of the dispatch chain in the Run loop. -/
inductive DispatchBranch where
  | invoke : DispatchBranch
  | shutdown : DispatchBranch
  | unknown : DispatchBranch
deriving DecidableEq

/-- Which branch of the dispatch chain an event takes: Invoke is checked
first, then Shutdown, otherwise the unknown event branch. -/
def Event.branch (ev : Event) : DispatchBranch :=
  if ev.Invoke.isSome then DispatchBranch.invoke
  else if ev.Shutdown.isSome then DispatchBranch.shutdown
  else DispatchBranch.unknown

/-- Client: the extension name, the two optional callbacks, the extension
identifier assigned by Register, and the two endpoint addresses. -/
structure Client where
  Name : String
  CallbackInvoke : Option (InvokeEvent → Option GoError)
  CallbackShutdown : Option (ShutdownEvent → Option GoError)
  extensionId : String
  lambdaExtensionAPIEndpoint : String
  lambdaTelemetryAPIEndpoint : String

/-- NewClient: fails when the runtime API host variable is empty, otherwise
returns a client with an empty extension identifier and the two endpoint
addresses derived from the host. -/
def NewClient (name host : String) : Except GoError Client :=
  if host = "" then Except.error (.errorf "AWS_LAMBDA_RUNTIME_API is not set")
  else Except.ok
    { Name := name
      CallbackInvoke := none
      CallbackShutdown := none
      extensionId := ""
      lambdaExtensionAPIEndpoint := "http://" ++ host ++ "/2020-01-01/extension"
      lambdaTelemetryAPIEndpoint := "http://" ++ host ++ "/2022-07-01/telemetry" }

/-- The event kind list Register sends, derived from which callbacks are
set on the client. -/
def registerEvents (c : Client) : List String :=
  (if c.CallbackInvoke.isSome then [EventTypeInvoke] else []) ++
  (if c.CallbackShutdown.isSome then [EventTypeShutdown] else [])

/-- The environment visible outcome of the single HTTP round trip Register
makes: a transport error, or a response with a body that decodes or not and
the value of the identifier header, empty when the header is absent since
Header.Get returns the empty string then. -/
inductive RegisterInput where
  | netErr (e : GoError) : RegisterInput
  | resp (bodyDecodes : Bool) (headerId : String) : RegisterInput

/-- Register: a transport error or an undecodable body returns an error and
leaves the client unchanged; otherwise the extension identifier field is
assigned from the identifier header, and when that header value is empty an
error is returned after the assignment. -/
def Register (c : Client) : RegisterInput → Client × Option GoError
  | .netErr e => (c, some (.wrap "failed to register extension: " e))
  | .resp bodyDecodes headerId =>
    if bodyDecodes = false then
      (c, some (.errorf "failed to decode register response"))
    else
      let c2 := { c with extensionId := headerId }
      if c2.extensionId = "" then
        (c2, some (.errorf "extension identifier is empty"))
      else (c2, none)

/-- Buffering limits of a telemetry subscription. -/
structure TelemetryBuffering where
  MaxItems : Int
  MaxBytes : Int
  TimeoutMs : Int
deriving DecidableEq

/-- Destination of a telemetry subscription. -/
structure TelemetryDestination where
  Protocol : String
  URI : String
deriving DecidableEq

/-- A telemetry subscription document. -/
structure TelemetrySubscription where
  SchemaVersion : String
  Types : List String
  Buffering : TelemetryBuffering
  Destination : TelemetryDestination
deriving DecidableEq

/-- The default telemetry port constant. -/
def DefaultTelemetryPort : Nat := 8080

/-- The package level default telemetry subscription value. -/
def DefaultTelemetrySubscription : TelemetrySubscription :=
  { SchemaVersion := "2022-12-13"
    Types := ["function", "platform"]
    Buffering := { MaxItems := 500, MaxBytes := 1024 * 1024, TimeoutMs := 1000 }
    Destination :=
      { Protocol := "HTTP"
        URI := "http://sandbox.localdomain:" ++ toString DefaultTelemetryPort } }

/-- NewDefaultTelemetrySubscription returns a copy of the default value. -/
def NewDefaultTelemetrySubscription : TelemetrySubscription :=
  DefaultTelemetrySubscription

/-- json marshalling of a telemetry subscription, following the field tags
of the Go struct definitions. -/
def TelemetrySubscription.marshal (s : TelemetrySubscription) : Json :=
  Json.obj
    [("schemaVersion", Json.str s.SchemaVersion),
     ("types", Json.arr (s.Types.map Json.str)),
     ("buffering", Json.obj
        [("maxItems", Json.num s.Buffering.MaxItems),
         ("maxBytes", Json.num s.Buffering.MaxBytes),
         ("timeoutMs", Json.num s.Buffering.TimeoutMs)]),
     ("destination", Json.obj
        [("protocol", Json.str s.Destination.Protocol),
         ("URI", Json.str s.Destination.URI)])]

/-- The request body SubscribeTelemetry sends: the supplied subscription,
or the default one when the caller supplies none. -/
def subscribeTelemetryBody (subscription : Option TelemetrySubscription) : Json :=
  (match subscription with
   | none => NewDefaultTelemetrySubscription
   | some s => s).marshal

/-- One observable interaction of a Run loop iteration with its
environment: the fetch of the next event fails, with the cancellation state
of the context at the moment the failure is handled, or the fetch succeeds
with a decoded event. -/
inductive RunInput where
  | fetchFail (ctxDone : Bool) : RunInput
  | fetchOk (ev : Event) : RunInput

/-- The outcome of one Run loop iteration: loop again, or return from Run
with a result, where none models a nil error. -/
inductive StepResult where
  | contPolling : StepResult
  | done (res : Option GoError) : StepResult
deriving DecidableEq

/-- One iteration of the Run loop body. A failed fetch returns nil when the
context is done, otherwise the error is logged and polling continues. A
fetched event with the Invoke variant set dispatches the invoke callback
when present; a callback error is logged and polling continues either way.
Otherwise an event with the Shutdown variant set dispatches the shutdown
callback when present: a callback error returns a wrapping error, and
otherwise nil is returned. An event with neither variant logs a warning and
polling continues. -/
def runStep (c : Client) : RunInput → StepResult
  | .fetchFail ctxDone =>
    if ctxDone then StepResult.done none else StepResult.contPolling
  | .fetchOk ev =>
    match ev.Invoke with
    | some iv =>
      match c.CallbackInvoke with
      | some cb =>
        match cb iv with
        | some _e => StepResult.contPolling
        | none => StepResult.contPolling
      | none => StepResult.contPolling
    | none =>
      match ev.Shutdown with
      | some sv =>
        match c.CallbackShutdown with
        | some cb =>
          match cb sv with
          | some e => StepResult.done (some (.wrap "shutdown callback failed: " e))
          | none => StepResult.done none
        | none => StepResult.done none
      | none => StepResult.contPolling

/-- The Run loop over a list of environment interactions: the first
component is some result when an iteration returns from Run, none when the
interactions are exhausted with the loop still polling; the second
component counts the fetch calls performed. -/
def runLoop (c : Client) : List RunInput → Option (Option GoError) × Nat
  | [] => (none, 0)
  | inp :: rest =>
    match runStep c inp with
    | StepResult.done res => (some res, 1)
    | StepResult.contPolling => ((runLoop c rest).1, (runLoop c rest).2 + 1)

/-- Run: an empty extension identifier returns the not registered error at
once, with zero fetch calls; otherwise the loop runs. -/
def Run (c : Client) (inputs : List RunInput) : Option (Option GoError) × Nat :=
  if c.extensionId = "" then
    (some (some (GoError.errorf "extension is not registered. call Register method first")), 0)
  else runLoop c inputs

/-- A sample leaf error. -/
def boomError : GoError := GoError.errorf "boom"

/-- A sample shutdown callback that always fails with boomError. -/
def shutdownErrHandler : ShutdownEvent → Option GoError := fun _ => some boomError

/-- A sample invoke callback that always fails. -/
def invokeErrHandler : InvokeEvent → Option GoError := fun _ => some (GoError.errorf "invoke boom")

/-- A sample invoke event. -/
def sampleInvokeEvent : InvokeEvent :=
  { zeroInvokeEvent with EventType := EventTypeInvoke, RequestID := "req-1" }

/-- A sample shutdown event. -/
def sampleShutdownEvent : ShutdownEvent :=
  { zeroShutdownEvent with EventType := EventTypeShutdown, ShutdownReason := "spindown" }

/-- A registered sample client whose callbacks both fail. -/
def registeredClient : Client :=
  { Name := "ext"
    CallbackInvoke := some invokeErrHandler
    CallbackShutdown := some shutdownErrHandler
    extensionId := "0000-0000-0000-0000"
    lambdaExtensionAPIEndpoint := "http://127.0.0.1:9001/2020-01-01/extension"
    lambdaTelemetryAPIEndpoint := "http://127.0.0.1:9001/2022-07-01/telemetry" }

/-- The same sample client before registration. -/
def unregisteredClient : Client := { registeredClient with extensionId := "" }

/-- A freshly constructed client with no callbacks and no identifier. -/
def freshClient : Client :=
  { Name := "ext"
    CallbackInvoke := none
    CallbackShutdown := none
    extensionId := ""
    lambdaExtensionAPIEndpoint := "http://127.0.0.1:9001/2020-01-01/extension"
    lambdaTelemetryAPIEndpoint := "http://127.0.0.1:9001/2022-07-01/telemetry" }

/-- A sample decoded event carrying only the Shutdown variant. -/
def fetchedSampleEvent : Event :=
  { Invoke := none
    Shutdown := some { EventType := "SHUTDOWN", DeadlineMs := 0, ShutdownReason := "spindown" } }

/-- Every error satisfies errors.Is against itself. -/
theorem GoError.is_self (e : GoError) : GoError.is e e = true := by
  cases e with
  | errorf m => simp [GoError.is]
  | wrap m inner => simp [GoError.is]

/-- When the loop consumes a prefix of interactions without returning, the
run over the concatenation continues into the remaining interactions, and
the fetch count adds up. -/
theorem runLoop_append (c : Client) (pre l : List RunInput)
    (h : (runLoop c pre).1 = none) :
    runLoop c (pre ++ l) = ((runLoop c l).1, pre.length + (runLoop c l).2) := by
  induction pre with
  | nil => simp [runLoop]
  | cons inp rest ih =>
    cases hs : runStep c inp with
    | done res =>
      exfalso
      simp [runLoop, hs] at h
    | contPolling =>
      have h2 : (runLoop c rest).1 = none := by
        simpa [runLoop, hs] using h
      have h3 := ih h2
      simp [runLoop, hs, h3]
      omega

/-- Scanning object keys none of which case folds to eventType leaves the
accumulated discriminator unchanged and succeeds. -/
theorem unmarshalCommonFields_no_match (acc : String) (kvs : List (String × Json))
    (h : ∀ p ∈ kvs, foldEq p.1 "eventType" = false) :
    unmarshalCommonFields acc kvs = Except.ok acc := by
  induction kvs with
  | nil => rfl
  | cons p rest ih =>
    obtain ⟨k, v⟩ := p
    have h1 : foldEq k "eventType" = false := h (k, v) (by simp)
    have h2 : ∀ q ∈ rest, foldEq q.1 "eventType" = false :=
      fun q hq => h q (by simp [hq])
    simp [unmarshalCommonFields, h1, ih h2]

/-- A payload whose decoded discriminator is neither INVOKE nor SHUTDOWN
makes UnmarshalJSON return the unknown event type error and leave both
variants of the receiver untouched. -/
theorem unmarshal_unknown_type (kvs : List (String × Json)) (s : String)
    (hcommon : unmarshalCommon (Json.obj kvs) = Except.ok s)
    (hI : s ≠ EventTypeInvoke) (hS : s ≠ EventTypeShutdown) :
    Event.unmarshalJSON zeroEvent (RawData.wellFormed (Json.obj kvs)) =
      (zeroEvent, some (GoError.errorf ("unknown event type: " ++ s))) := by
  simp [Event.unmarshalJSON, hcommon, hI, hS]

/-- C1 counterexample: a shutdown handler failing with the error boom makes
Run return the wrapping error with message shutdown callback failed, which
is not the same error value the handler returned. -/
theorem C1_counterexample :
    Run registeredClient
        [RunInput.fetchOk { Invoke := none, Shutdown := some sampleShutdownEvent }] =
      (some (some (GoError.wrap "shutdown callback failed: " boomError)), 1) ∧
    (Run registeredClient
        [RunInput.fetchOk { Invoke := none, Shutdown := some sampleShutdownEvent }]).1 ≠
      some (some boomError) := by
  exact ⟨by decide, by decide⟩

/-- C1 amended: whenever a fetched event decodes to the Shutdown variant
and the shutdown handler is set and returns an error, Run terminates at
that very poll, performing no further polling, and returns an error that
wraps that same handler error: the result satisfies errors.Is against the
handler error and its message prepends shutdown callback failed to the
handler message, but it is a wrapping value rather than the identical one. -/
theorem C1_shutdown_error_wrapped (c : Client) (pre rest : List RunInput)
    (cb : ShutdownEvent → Option GoError) (sv : ShutdownEvent) (e : GoError)
    (hreg : c.extensionId ≠ "") (hpre : (runLoop c pre).1 = none)
    (hcb : c.CallbackShutdown = some cb) (he : cb sv = some e) :
    Run c (pre ++ RunInput.fetchOk { Invoke := none, Shutdown := some sv } :: rest) =
      (some (some (GoError.wrap "shutdown callback failed: " e)), pre.length + 1) ∧
    GoError.is (GoError.wrap "shutdown callback failed: " e) e = true ∧
    (GoError.wrap "shutdown callback failed: " e).message =
      "shutdown callback failed: " ++ e.message := by
  refine ⟨?_, ?_, rfl⟩
  · have hstep : runStep c (RunInput.fetchOk { Invoke := none, Shutdown := some sv }) =
        StepResult.done (some (GoError.wrap "shutdown callback failed: " e)) := by
      simp [runStep, hcb, he]
    unfold Run
    rw [if_neg hreg, runLoop_append c pre _ hpre]
    simp [runLoop, hstep]
  · simp [GoError.is, GoError.is_self]

/-- C1 witness: the amended statement at a concrete client, prefix and
handler error. -/
theorem C1_witness :
    Run registeredClient
        ([] ++ RunInput.fetchOk { Invoke := none, Shutdown := some sampleShutdownEvent } :: []) =
      (some (some (GoError.wrap "shutdown callback failed: " boomError)),
       List.length ([] : List RunInput) + 1) ∧
    GoError.is (GoError.wrap "shutdown callback failed: " boomError) boomError = true ∧
    (GoError.wrap "shutdown callback failed: " boomError).message =
      "shutdown callback failed: " ++ boomError.message :=
  C1_shutdown_error_wrapped registeredClient [] [] shutdownErrHandler sampleShutdownEvent
    boomError (by decide) rfl rfl rfl

/-- C2: in the step relation of the Run loop, dispatching an event whose
Invoke variant is set never terminates the loop, whatever the handler
presence and outcome, while dispatching an event whose Shutdown variant is
set, the Invoke one being absent, always terminates the loop, again for
every handler presence and outcome. -/
theorem C2_step_dichotomy :
    (∀ (c : Client) (ev : Event) (iv : InvokeEvent), ev.Invoke = some iv →
      runStep c (RunInput.fetchOk ev) = StepResult.contPolling) ∧
    (∀ (c : Client) (ev : Event) (sv : ShutdownEvent), ev.Invoke = none →
      ev.Shutdown = some sv →
      ∃ res, runStep c (RunInput.fetchOk ev) = StepResult.done res) := by
  constructor
  · intro c ev iv hi
    cases hcb : c.CallbackInvoke with
    | none => simp [runStep, hi, hcb]
    | some cb =>
      cases hr : cb iv with
      | none => simp [runStep, hi, hcb, hr]
      | some e => simp [runStep, hi, hcb, hr]
  · intro c ev sv hi hs
    cases hcb : c.CallbackShutdown with
    | none => exact ⟨none, by simp [runStep, hi, hs, hcb]⟩
    | some cb =>
      cases hr : cb sv with
      | none => exact ⟨none, by simp [runStep, hi, hs, hcb, hr]⟩
      | some e => exact ⟨some (GoError.wrap "shutdown callback failed: " e),
          by simp [runStep, hi, hs, hcb, hr]⟩

/-- C2 witness: the dichotomy at a concrete client whose handlers fail. -/
theorem C2_witness :
    runStep registeredClient
        (RunInput.fetchOk { Invoke := some sampleInvokeEvent, Shutdown := none }) =
      StepResult.contPolling ∧
    ∃ res, runStep registeredClient
        (RunInput.fetchOk { Invoke := none, Shutdown := some sampleShutdownEvent }) =
      StepResult.done res :=
  ⟨C2_step_dichotomy.1 registeredClient _ sampleInvokeEvent rfl,
   C2_step_dichotomy.2 registeredClient _ sampleShutdownEvent rfl rfl⟩

/-- C3: when a fetch fails and the surrounding cancellation has fired by
the time the failure is observed, Run terminates at that poll and returns
success, the nil error, not an error. -/
theorem C3_cancelled_fetch_returns_success (c : Client) (pre rest : List RunInput)
    (hreg : c.extensionId ≠ "") (hpre : (runLoop c pre).1 = none) :
    Run c (pre ++ RunInput.fetchFail true :: rest) = (some none, pre.length + 1) := by
  unfold Run
  rw [if_neg hreg, runLoop_append c pre _ hpre]
  simp [runLoop, runStep]

/-- C3 witness: the cancelled failed fetch at a concrete client. -/
theorem C3_witness :
    Run registeredClient ([] ++ RunInput.fetchFail true :: []) =
      (some none, List.length ([] : List RunInput) + 1) :=
  C3_cancelled_fetch_returns_success registeredClient [] [] (by decide) rfl

/-- C4: a client whose extension identifier is unset makes Run return the
not registered error at once, with zero fetch calls issued. -/
theorem C4_not_registered (c : Client) (inputs : List RunInput)
    (h : c.extensionId = "") :
    Run c inputs =
      (some (some (GoError.errorf
        "extension is not registered. call Register method first")), 0) := by
  simp [Run, h]

/-- C4 witness: the not registered error on a concrete unregistered client. -/
theorem C4_witness :
    Run unregisteredClient [RunInput.fetchFail false] =
      (some (some (GoError.errorf
        "extension is not registered. call Register method first")), 0) :=
  C4_not_registered unregisteredClient [RunInput.fetchFail false] rfl

/-- C5: a well formed payload with discriminator INVOKE decodes into an
Invoke variant populated from the payload fields with the Shutdown variant
absent, and symmetrically a well formed payload with discriminator SHUTDOWN
decodes into a populated Shutdown variant with the Invoke variant absent. -/
theorem C5_decode_variants (d : Int) (rid arn tt tv : String)
    (d2 : Int) (reason : String) :
    Event.unmarshalJSON zeroEvent (RawData.wellFormed (Json.obj
        [("eventType", Json.str "INVOKE"), ("deadlineMs", Json.num d),
         ("requestId", Json.str rid), ("invokedFunctionArn", Json.str arn),
         ("tracing", Json.obj [("type", Json.str tt), ("value", Json.str tv)])])) =
      ({ Invoke := some { EventType := "INVOKE", DeadlineMs := d, RequestID := rid,
                          InvokedFunctionArn := arn, Tracing := { type := tt, value := tv } },
         Shutdown := none }, none) ∧
    Event.unmarshalJSON zeroEvent (RawData.wellFormed (Json.obj
        [("eventType", Json.str "SHUTDOWN"), ("deadlineMs", Json.num d2),
         ("shutdownReason", Json.str reason)])) =
      ({ Invoke := none, Shutdown := some { EventType := "SHUTDOWN", DeadlineMs := d2,
                                            ShutdownReason := reason } }, none) :=
  ⟨rfl, rfl⟩

/-- C5 witness: both decode directions at concrete field values. -/
theorem C5_witness :
    Event.unmarshalJSON zeroEvent (RawData.wellFormed (Json.obj
        [("eventType", Json.str "INVOKE"), ("deadlineMs", Json.num 676051),
         ("requestId", Json.str "req-7"), ("invokedFunctionArn", Json.str "arn-x"),
         ("tracing", Json.obj [("type", Json.str "X-Amzn-Trace-Id"), ("value", Json.str "Root=1")])])) =
      ({ Invoke := some { EventType := "INVOKE", DeadlineMs := 676051, RequestID := "req-7",
                          InvokedFunctionArn := "arn-x",
                          Tracing := { type := "X-Amzn-Trace-Id", value := "Root=1" } },
         Shutdown := none }, none) ∧
    Event.unmarshalJSON zeroEvent (RawData.wellFormed (Json.obj
        [("eventType", Json.str "SHUTDOWN"), ("deadlineMs", Json.num 9),
         ("shutdownReason", Json.str "spindown")])) =
      ({ Invoke := none, Shutdown := some { EventType := "SHUTDOWN", DeadlineMs := 9,
                                            ShutdownReason := "spindown" } }, none) :=
  C5_decode_variants 676051 "req-7" "arn-x" "X-Amzn-Trace-Id" "Root=1" 9 "spindown"

/-- C6: the decoder fails and leaves both variants of the fresh receiver
absent when the payload bytes are malformed, when the payload object has no
key matching the eventType discriminator, and when the decoded
discriminator is any value outside INVOKE and SHUTDOWN. -/
theorem C6_decode_failures :
    ((Event.unmarshalJSON zeroEvent RawData.malformed).1 = zeroEvent ∧
     (Event.unmarshalJSON zeroEvent RawData.malformed).2.isSome = true) ∧
    (∀ kvs : List (String × Json), (∀ p ∈ kvs, foldEq p.1 "eventType" = false) →
      (Event.unmarshalJSON zeroEvent (RawData.wellFormed (Json.obj kvs))).1 = zeroEvent ∧
      (Event.unmarshalJSON zeroEvent (RawData.wellFormed (Json.obj kvs))).2.isSome = true) ∧
    (∀ (kvs : List (String × Json)) (s : String),
      unmarshalCommon (Json.obj kvs) = Except.ok s →
      s ≠ EventTypeInvoke → s ≠ EventTypeShutdown →
      Event.unmarshalJSON zeroEvent (RawData.wellFormed (Json.obj kvs)) =
        (zeroEvent, some (GoError.errorf ("unknown event type: " ++ s)))) := by
  refine ⟨⟨rfl, rfl⟩, ?_, unmarshal_unknown_type⟩
  intro kvs hnone
  have hc : unmarshalCommon (Json.obj kvs) = Except.ok "" := by
    simpa [unmarshalCommon] using unmarshalCommonFields_no_match "" kvs hnone
  have h := unmarshal_unknown_type kvs "" hc (by decide) (by decide)
  rw [h]
  exact ⟨rfl, rfl⟩

/-- C6 witness: a payload without the discriminator and a payload with an
unrecognized discriminator, both rejected with no variant populated. -/
theorem C6_witness :
    ((Event.unmarshalJSON zeroEvent
        (RawData.wellFormed (Json.obj [("requestId", Json.str "r")]))).1 = zeroEvent ∧
     (Event.unmarshalJSON zeroEvent
        (RawData.wellFormed (Json.obj [("requestId", Json.str "r")]))).2.isSome = true) ∧
    Event.unmarshalJSON zeroEvent
        (RawData.wellFormed (Json.obj [("eventType", Json.str "TELEMETRY")])) =
      (zeroEvent, some (GoError.errorf ("unknown event type: " ++ "TELEMETRY"))) :=
  ⟨C6_decode_failures.2.1 [("requestId", Json.str "r")] (by decide),
   C6_decode_failures.2.2 [("eventType", Json.str "TELEMETRY")] "TELEMETRY" rfl
     (by decide) (by decide)⟩

/-- C7 counterexample: a payload whose discriminator is FOO is rejected by
the decoder with the unknown event type error, so it is treated as an error
at decode level, contrary to the claim that it is accepted there. -/
theorem C7_counterexample :
    (Event.unmarshalJSON zeroEvent
        (RawData.wellFormed (Json.obj [("eventType", Json.str "FOO")]))).2 =
      some (GoError.errorf "unknown event type: FOO") ∧
    fetchDecode (RawData.wellFormed (Json.obj [("eventType", Json.str "FOO")])) =
      Except.error (GoError.errorf "unknown event type: FOO") :=
  ⟨by decide, rfl⟩

/-- C7 amended: a payload carrying an unrecognized event kind is rejected
at decode level with the unknown event type error and populates no variant,
so the fetch fails; the loop treats that as a fetch failure and, when the
cancellation has not fired, logs it and returns to Polling without
dispatching any handler. -/
theorem C7_unknown_kind_rejected (kvs : List (String × Json)) (s : String) (c : Client)
    (hcommon : unmarshalCommon (Json.obj kvs) = Except.ok s)
    (hI : s ≠ EventTypeInvoke) (hS : s ≠ EventTypeShutdown) :
    Event.unmarshalJSON zeroEvent (RawData.wellFormed (Json.obj kvs)) =
      (zeroEvent, some (GoError.errorf ("unknown event type: " ++ s))) ∧
    fetchDecode (RawData.wellFormed (Json.obj kvs)) =
      Except.error (GoError.errorf ("unknown event type: " ++ s)) ∧
    runStep c (RunInput.fetchFail false) = StepResult.contPolling := by
  have h := unmarshal_unknown_type kvs s hcommon hI hS
  refine ⟨h, ?_, rfl⟩
  simp [fetchDecode, h]

/-- C7 witness: the amended statement at a concrete unrecognized kind. -/
theorem C7_witness :
    Event.unmarshalJSON zeroEvent
        (RawData.wellFormed (Json.obj [("eventType", Json.str "EXTENSION")])) =
      (zeroEvent, some (GoError.errorf ("unknown event type: " ++ "EXTENSION"))) ∧
    fetchDecode (RawData.wellFormed (Json.obj [("eventType", Json.str "EXTENSION")])) =
      Except.error (GoError.errorf ("unknown event type: " ++ "EXTENSION")) ∧
    runStep registeredClient (RunInput.fetchFail false) = StepResult.contPolling :=
  C7_unknown_kind_rejected [("eventType", Json.str "EXTENSION")] "EXTENSION"
    registeredClient rfl (by decide) (by decide)

/-- C8 counterexample: a first successful Register sets the identifier to
A, yet a second call with a response carrying header B changes it to B, and
a second call whose response lacks the header overwrites it with the empty
string while failing, so the field is not mutated exactly once and a
failing call does not leave it unchanged. -/
theorem C8_counterexample :
    (Register freshClient (RegisterInput.resp true "A")).2 = none ∧
    (Register freshClient (RegisterInput.resp true "A")).1.extensionId = "A" ∧
    (Register (Register freshClient (RegisterInput.resp true "A")).1
        (RegisterInput.resp true "B")).1.extensionId = "B" ∧
    (Register (Register freshClient (RegisterInput.resp true "A")).1
        (RegisterInput.resp true "")).1.extensionId = "" ∧
    (Register (Register freshClient (RegisterInput.resp true "A")).1
        (RegisterInput.resp true "")).2 ≠ none := by
  refine ⟨by decide, by decide, by decide, by decide, by decide⟩

/-- C8 amended: a Register call failing at the transport or at body
decoding leaves the client unchanged; a call that receives a decodable
response assigns the identifier field from the identifier header, every
time, succeeding exactly when that header value is nonempty; hence on a
client whose identifier is empty, any failing Register leaves the field
empty. -/
theorem C8_register_assignment :
    (∀ (c : Client) (e : GoError), (Register c (RegisterInput.netErr e)).1 = c) ∧
    (∀ (c : Client) (hid : String), (Register c (RegisterInput.resp false hid)).1 = c) ∧
    (∀ (c : Client) (hid : String),
      (Register c (RegisterInput.resp true hid)).1.extensionId = hid ∧
      ((Register c (RegisterInput.resp true hid)).2 = none ↔ hid ≠ "")) ∧
    (∀ (c : Client) (inp : RegisterInput), c.extensionId = "" →
      (Register c inp).2 ≠ none → (Register c inp).1.extensionId = "") := by
  refine ⟨fun c e => rfl, fun c hid => rfl, ?_, ?_⟩
  · intro c hid
    by_cases h : hid = ""
    · subst h
      exact ⟨by simp [Register], by simp [Register]⟩
    · exact ⟨by simp [Register, h], by simp [Register, h]⟩
  · intro c inp hc hfail
    cases inp with
    | netErr e => simpa [Register] using hc
    | resp bodyDecodes hid =>
      cases bodyDecodes with
      | false => simpa [Register] using hc
      | true =>
        by_cases h : hid = ""
        · subst h; simp [Register]
        · exact absurd (by simp [Register, h]) hfail

/-- C8 witness: the amended statement at concrete register outcomes. -/
theorem C8_witness :
    (Register freshClient (RegisterInput.netErr boomError)).1 = freshClient ∧
    (Register freshClient (RegisterInput.resp true "abc")).1.extensionId = "abc" ∧
    (Register freshClient (RegisterInput.resp true "")).1.extensionId = "" :=
  ⟨C8_register_assignment.1 freshClient boomError,
   (C8_register_assignment.2.2.1 freshClient "abc").1,
   C8_register_assignment.2.2.2 freshClient (RegisterInput.resp true "") rfl (by decide)⟩

/-- C9: with no subscription supplied, the body SubscribeTelemetry sends is
exactly the documented default: schema version 2022-12-13, types function
and platform, buffering limits 500 items, 1048576 bytes and 1000
milliseconds, and an HTTP destination at the sandbox host on port 8080. -/
theorem C9_default_subscription_body :
    subscribeTelemetryBody none =
      Json.obj
        [("schemaVersion", Json.str "2022-12-13"),
         ("types", Json.arr [Json.str "function", Json.str "platform"]),
         ("buffering", Json.obj
            [("maxItems", Json.num 500),
             ("maxBytes", Json.num 1048576),
             ("timeoutMs", Json.num 1000)]),
         ("destination", Json.obj
            [("protocol", Json.str "HTTP"),
             ("URI", Json.str "http://sandbox.localdomain:8080")])] := rfl

/-- C10: whenever the fetch decoder succeeds, exactly one of the two
variants of the produced event is set, and consequently such an event never
takes the unknown branch of the dispatch chain in the Run loop. -/
theorem C10_decode_exactly_one (data : RawData) (ev : Event)
    (h : fetchDecode data = Except.ok ev) :
    ((ev.Invoke.isSome = true ∧ ev.Shutdown = none) ∨
     (ev.Invoke = none ∧ ev.Shutdown.isSome = true)) ∧
    Event.branch ev ≠ DispatchBranch.unknown := by
  have hev : (ev.Invoke.isSome = true ∧ ev.Shutdown = none) ∨
      (ev.Invoke = none ∧ ev.Shutdown.isSome = true) := by
    cases data with
    | malformed => simp [fetchDecode, Event.unmarshalJSON] at h
    | wellFormed j =>
      cases hc : unmarshalCommon j with
      | error e => simp [fetchDecode, Event.unmarshalJSON, hc] at h
      | ok et =>
        by_cases hI : et = EventTypeInvoke
        · cases hx : (unmarshalInvoke zeroInvokeEvent j).2 with
          | some e => simp [fetchDecode, Event.unmarshalJSON, hc, hI, hx] at h
          | none =>
            simp [fetchDecode, Event.unmarshalJSON, hc, hI, hx, zeroEvent] at h
            subst h
            simp
        · by_cases hS : et = EventTypeShutdown
          · cases hx : (unmarshalShutdown zeroShutdownEvent j).2 with
            | some e =>
              simp [fetchDecode, Event.unmarshalJSON, hc, hI, hS, hx,
                EventTypeInvoke, EventTypeShutdown] at h
            | none =>
              simp [fetchDecode, Event.unmarshalJSON, hc, hI, hS, hx, zeroEvent,
                EventTypeInvoke, EventTypeShutdown] at h
              subst h
              simp
          · simp [fetchDecode, Event.unmarshalJSON, hc, hI, hS] at h
  refine ⟨hev, ?_⟩
  rcases hev with ⟨h1, _⟩ | ⟨h1, h2⟩
  · simp [Event.branch, h1]
  · simp [Event.branch, h1, h2]

/-- C10 witness: the invariant at a concrete successfully decoded payload. -/
theorem C10_witness :
    ((fetchedSampleEvent.Invoke.isSome = true ∧ fetchedSampleEvent.Shutdown = none) ∨
     (fetchedSampleEvent.Invoke = none ∧ fetchedSampleEvent.Shutdown.isSome = true)) ∧
    Event.branch fetchedSampleEvent ≠ DispatchBranch.unknown :=
  C10_decode_exactly_one
    (RawData.wellFormed (Json.obj
      [("eventType", Json.str "SHUTDOWN"), ("shutdownReason", Json.str "spindown")]))
    fetchedSampleEvent rfl

end Extensions
